import Mathlib

/-!
A shallow embedding of the request-orchestration layer of the OOTDiffusion
serving repository: the validation rules (utils/validation.py), the
configuration constants they read (config.py), the FastAPI pipeline
(api/app.py), the RunPod handler (handler.py), and the error utilities
(utils/error_handling.py).  Opaque heavy stages (pose estimation, semantic
parsing, the generative synthesizer, raw mask computation) are modelled as
oracle parameters; everything else is translated from the source.
-/

/-- A value of the Python type Union[int, str], as used for the garment
category field. -/
inductive CatVal where
  | int (n : Int)
  | str (s : String)
deriving DecidableEq

/-- Python str() of a category value, as interpolated into messages. -/
def catStr : CatVal → String
  | .int n => toString n
  | .str s => s

/-- ProcessingConfig from config.py with its default values. -/
structure ProcessingConfig where
  default_samples : Int := 1
  max_samples : Int := 4
  default_steps : Int := 20
  max_steps : Int := 40
  default_scale : Rat := 2
  min_scale : Rat := 1
  max_scale : Rat := 5

/-- The process-wide configuration instance (config.processing). -/
def processingConfig : ProcessingConfig := {}

/-- InputValidator.validate_model_type from utils/validation.py. -/
def validate_model_type (model_type : String) : Bool × String :=
  if model_type = "hd" ∨ model_type = "dc" then
    (true, "Valid model type")
  else
    (false, "Invalid model type: " ++ model_type ++ " (valid: [\x27hd\x27, \x27dc\x27])")

/-- InputValidator.validate_category from utils/validation.py. -/
def validate_category (category : CatVal) (model_type : String) : Bool × String :=
  if model_type = "hd" then
    if category ≠ CatVal.int 0 ∧ category ≠ CatVal.str "upperbody" then
      (false, "HD model only supports upperbody garments")
    else
      (true, "Valid category for HD model")
  else if model_type = "dc" then
    if category ∈ [CatVal.int 0, CatVal.int 1, CatVal.int 2,
        CatVal.str "upperbody", CatVal.str "lowerbody", CatVal.str "dress"] then
      (true, "Valid category for DC model")
    else
      (false, "Invalid category: " ++ catStr category ++
        " (valid: [0, 1, 2, \x27upperbody\x27, \x27lowerbody\x27, \x27dress\x27])")
  else
    (false, "Unknown model type: " ++ model_type)

/-- InputValidator.validate_samples from utils/validation.py. -/
def validate_samples (samples : Int) : Bool × String :=
  if samples < 1 then
    (false, "Samples must be at least 1, got: " ++ toString samples)
  else if samples > processingConfig.max_samples then
    (false, "Samples too high: " ++ toString samples ++ " (max: " ++
      toString processingConfig.max_samples ++ ")")
  else
    (true, "Valid samples count")

/-- InputValidator.validate_steps from utils/validation.py. -/
def validate_steps (steps : Int) : Bool × String :=
  if steps < 1 then
    (false, "Steps must be at least 1, got: " ++ toString steps)
  else if steps > processingConfig.max_steps then
    (false, "Steps too high: " ++ toString steps ++ " (max: " ++
      toString processingConfig.max_steps ++ ")")
  else
    (true, "Valid steps count")

/-- InputValidator.validate_scale from utils/validation.py. -/
def validate_scale (scale : Rat) : Bool × String :=
  if scale < processingConfig.min_scale then
    (false, "Scale too low: " ++ toString scale ++ " (min: " ++
      toString processingConfig.min_scale ++ ")")
  else if scale > processingConfig.max_scale then
    (false, "Scale too high: " ++ toString scale ++ " (max: " ++
      toString processingConfig.max_scale ++ ")")
  else
    (true, "Valid scale value")

/-- InputValidator.validate_seed from utils/validation.py. -/
def validate_seed (seed : Int) : Bool × String :=
  if seed < -1 then
    (false, "Seed must be -1 or positive, got: " ++ toString seed)
  else if seed > 2147483647 then
    (false, "Seed too large: " ++ toString seed ++ " (max: 2147483647)")
  else
    (true, "Valid seed value")

/-- One error-list contribution of validate_request: when a rule result is
invalid, one entry tagged with the field name is appended. -/
def tagged (tag : String) (r : Bool × String) : List String :=
  if r.1 = true then [] else [tag ++ ": " ++ r.2]

/-- Contribution of an optional request field: the rule runs only when the
key is present in the request dict. -/
def taggedOpt {β : Type} (tag : String) (o : Option β) (v : β → Bool × String) :
    List String :=
  match o with
  | none => []
  | some x => tagged tag (v x)

/-- The request_data dict passed to InputValidator.validate_request: each key
may be absent. -/
structure RequestData where
  model_path : Option String := none
  cloth_path : Option String := none
  model_type : Option String := none
  category : Option CatVal := none
  samples : Option Int := none
  steps : Option Int := none
  scale : Option Rat := none
  seed : Option Int := none

/-- InputValidator.validate_request from utils/validation.py.  The file-system
dependent validate_image_file is abstracted as the oracle fileCheck (its
Bool-and-message result for a given path).  Missing required path fields
short-circuit; otherwise every rule contributes its tagged entries and the
first component is whether the collected error list is empty. -/
def validate_request (fileCheck : String → Bool × String) (d : RequestData) :
    Bool × List String :=
  match d.model_path, d.cloth_path with
  | none, none =>
      (false, ["Missing required field: model_path", "Missing required field: cloth_path"])
  | none, some _ => (false, ["Missing required field: model_path"])
  | some _, none => (false, ["Missing required field: cloth_path"])
  | some mp, some cp =>
      let mt := d.model_type.getD "hd"
      let cat := d.category.getD (CatVal.int 0)
      let errors :=
        tagged "Model path" (fileCheck mp) ++
        tagged "Cloth path" (fileCheck cp) ++
        tagged "Model type" (validate_model_type mt) ++
        tagged "Category" (validate_category cat mt) ++
        taggedOpt "Samples" d.samples validate_samples ++
        taggedOpt "Steps" d.steps validate_steps ++
        taggedOpt "Scale" d.scale validate_scale ++
        taggedOpt "Seed" d.seed validate_seed
      (errors.length == 0, errors)

/-- Number of violations a rule result contributes. -/
def vcount (r : Bool × String) : Nat := if r.1 = true then 0 else 1

/-- Number of violations an optional field contributes. -/
def ocount {β : Type} (o : Option β) (v : β → Bool × String) : Nat :=
  match o with
  | none => 0
  | some x => vcount (v x)

/-- The number of individually violated rules of a request whose two required
path fields are present, computed directly from the individual validators. -/
def expectedViolations (fileCheck : String → Bool × String) (d : RequestData)
    (mp cp : String) : Nat :=
  vcount (fileCheck mp) + vcount (fileCheck cp) +
  vcount (validate_model_type (d.model_type.getD "hd")) +
  vcount (validate_category (d.category.getD (CatVal.int 0)) (d.model_type.getD "hd")) +
  ocount d.samples validate_samples +
  ocount d.steps validate_steps +
  ocount d.scale validate_scale +
  ocount d.seed validate_seed

/-- Python str.lower(), as a charwise map. -/
def strLower (s : String) : String := String.mk (s.data.map Char.toLower)

/-- validate_and_convert_category from utils/validation.py: re-validates, then
converts a symbolic name (lowercased, via category_map) or an integer to the
integer category; an unmapped lowercased name is the KeyError path. -/
def validate_and_convert_category (category : CatVal) (model_type : String) :
    Except String Int :=
  if (validate_category category model_type).1 = false then
    .error ("Invalid category: " ++ (validate_category category model_type).2)
  else
    match category with
    | .int n => .ok n
    | .str s =>
        if strLower s = "upperbody" then .ok 0
        else if strLower s = "lowerbody" then .ok 1
        else if strLower s = "dress" then .ok 2
        else .error "KeyError"

/-- A decoded raster image: dimensions plus a per-pixel grayscale value. -/
structure Img where
  width : Nat
  height : Nat
  pix : Nat → Nat → Nat

/-- Modelled from the spec: PIL resize with the NEAREST filter, as invoked on
the mask and grayscale mask — every output pixel is a copy of the nearest
source pixel, with no smoothing. -/
def resizeNearest (w h : Nat) (img : Img) : Img :=
  { width := w, height := h,
    pix := fun x y => img.pix (x * img.width / w) (y * img.height / h) }

/-- Modelled from the spec: PIL Image.composite applied to the binary Mask of
the data model — a hard per-pixel selection, taking the first image where the
mask is set and the second elsewhere. -/
def composite (img1 img2 maskImg : Img) : Img :=
  { width := img2.width, height := img2.height,
    pix := fun x y => if maskImg.pix x y ≠ 0 then img1.pix x y else img2.pix x y }

/-- The keyword arguments of the single synthesizer call in
ModelManager.process_image (api/app.py). -/
structure SynthArgs where
  model_type : String
  category : String
  image_garm : Img
  image_vton : Img
  maskArg : Img
  image_ori : Img
  num_samples : Int
  num_steps : Int
  image_scale : Rat
  seed : Int

/-- The opaque per-profile stage bundle acquired by process_image: pose
estimator, parser, raw mask computation (run/utils_ootd.get_mask_location,
not under src) and the generative synthesizer. -/
structure Stages where
  openpose : Img → List (Nat × Nat)
  parsing : Img → Img
  getMaskLocation : String → String → Img → List (Nat × Nat) → Img × Img
  synth : SynthArgs → List Img

/-- The external-world oracles of process_image: the result of
validate_image_file per path, PIL Image.open per path, and PIL resize with
the default filter. -/
structure Env where
  fileCheck : String → Bool × String
  loadImage : String → Img
  resizeDefault : Img → Nat → Nat → Img

/-- The Pydantic ProcessRequest of api/app.py. -/
structure ProcessRequest where
  model_type : String := "hd"
  category : CatVal := CatVal.int 0
  samples : Int := 1
  steps : Int := 20
  scale : Rat := 2
  seed : Int := -1

/-- The request_data dict that process_image passes to validate_request:
every key present. -/
def reqData (mp cp : String) (req : ProcessRequest) : RequestData :=
  { model_path := some mp, cloth_path := some cp,
    model_type := some req.model_type, category := some req.category,
    samples := some req.samples, steps := some req.steps,
    scale := some req.scale, seed := some req.seed }

/-- The errors process_image can raise. -/
inductive PErr where
  | validationError (message field : String)
  | processingError (message step : String)
  | unexpected (message : String)
deriving DecidableEq

/-- The result path strings written by the save loop of process_image:
config.output_dir / results / result_(timestamp)_(index).png, one per
returned image, in encounter order. -/
def mkResultPaths (timestamp : String) (n : Nat) : List String :=
  (List.range n).map
    (fun i => "outputs/results/result_" ++ timestamp ++ "_" ++ toString i ++ ".png")

/-- ModelManager.process_image from api/app.py: validate the full request
dict, convert the category, load and resize both images, run pose and parsing
at the working resolution, compute and upsample the mask pair, composite the
masked image, invoke the synthesizer once, and save every returned image. -/
def processImage (env : Env) (st : Stages) (model_path cloth_path : String)
    (req : ProcessRequest) (timestamp : String) : Except PErr (List String) :=
  let v := validate_request env.fileCheck (reqData model_path cloth_path req)
  if v.1 = false then
    .error (.validationError
      ("Invalid request: " ++ String.intercalate ", " v.2) "request")
  else
    match validate_and_convert_category req.category req.model_type with
    | .error e => .error (.validationError e "category")
    | .ok catInt =>
        let category := catInt.toNat
        let model_img := env.resizeDefault (env.loadImage model_path) 768 1024
        let cloth_img := env.resizeDefault (env.loadImage cloth_path) 768 1024
        let keypoints := st.openpose (env.resizeDefault model_img 384 512)
        let model_parse := st.parsing (env.resizeDefault model_img 384 512)
        let category_dict_utils := ["upper_body", "lower_body", "dresses"]
        let mpair := st.getMaskLocation req.model_type
          (category_dict_utils.getD category "") model_parse keypoints
        let maskR := resizeNearest 768 1024 mpair.1
        let mask_gray := resizeNearest 768 1024 mpair.2
        let masked_model_img := composite mask_gray model_img maskR
        let category_dict := ["upperbody", "lowerbody", "dress"]
        let images := st.synth
          { model_type := req.model_type,
            category := category_dict.getD category "",
            image_garm := cloth_img,
            image_vton := masked_model_img,
            maskArg := maskR,
            image_ori := model_img,
            num_samples := req.samples,
            num_steps := req.steps,
            image_scale := req.scale,
            seed := req.seed }
        .ok (mkResultPaths timestamp images.length)

/-- A filesystem snapshot: the set of existing file paths. -/
abbrev FS := Finset String

/-- One unlink guarded by an existence check, as in the finally block of
process_images and in cleanup_temp_files (api/app.py): if the path exists it
is removed, otherwise nothing happens. -/
def unlinkIfExists (p : String) (fs : FS) : FS :=
  if p ∈ fs then fs.erase p else fs

/-- cleanup_temp_files from api/app.py: for each path, unlink it if it
exists; any failure is caught, so the call never raises. -/
def cleanup_temp_files (paths : List String) (fs : FS) : FS :=
  paths.foldl (fun s p => unlinkIfExists p s) fs

/-- Persisting a list of output files into the filesystem. -/
def insertOuts (outs : List String) (fs : FS) : FS :=
  outs.foldr (fun p s => insert p s) fs

/-- The distinct exit paths of the process_images endpoint (api/app.py):
content-type rejection of either upload, a failure while writing either temp
file, a failure inside process_image, or success. -/
inductive AppExit where
  | badModelType
  | badClothType
  | writeModelFails
  | writeClothFails
  | procFails
  | procOk
deriving DecidableEq

/-- The filesystem effect of one request through the process_images endpoint
of api/app.py.  mtemp and ctemp are the two fresh temp-file paths returned by
create_temp_file; outs are the result files process_image writes before
returning or failing.  Every exit path runs the finally block, which unlinks
each temp path that exists; on success the scheduled background
cleanup_temp_files runs as well. -/
def process_images (mtemp ctemp : String) (outs : List String) (sc : AppExit)
    (fs : FS) : FS :=
  match sc with
  | .badModelType => fs
  | .badClothType => fs
  | .writeModelFails =>
      unlinkIfExists ctemp (unlinkIfExists mtemp (insert mtemp fs))
  | .writeClothFails =>
      unlinkIfExists ctemp (unlinkIfExists mtemp (insert ctemp (insert mtemp fs)))
  | .procFails =>
      unlinkIfExists ctemp (unlinkIfExists mtemp
        (insertOuts outs (insert ctemp (insert mtemp fs))))
  | .procOk =>
      cleanup_temp_files [mtemp, ctemp]
        (unlinkIfExists ctemp (unlinkIfExists mtemp
          (insertOuts outs (insert ctemp (insert mtemp fs)))))

/-- The finally block of RunPodHandler._handle_process (handler.py): both
unlinks run inside one try whose except swallows everything, and os.unlink
raises on a missing file, so if the first unlink fails the second is
skipped. -/
def handlerCleanup (mtemp ctemp : String) (fs : FS) : FS :=
  if mtemp ∈ fs then
    let s2 := fs.erase mtemp
    if ctemp ∈ s2 then s2.erase ctemp else s2
  else fs

/-- The distinct exit paths of RunPodHandler._handle_process (handler.py):
missing upload fields, a failure while decoding and writing either temp file
(the NamedTemporaryFile already exists on disk when the write raises), a
failure inside process_image, or success. -/
inductive HExit where
  | missingFiles
  | modelDecodeFails
  | clothDecodeFails
  | procFails
  | procOk
deriving DecidableEq

/-- The filesystem effect of one request through
RunPodHandler._handle_process (handler.py).  The try/finally protecting the
temp files begins only after both temp files have been materialized; a
decode failure before that point is caught by the outer except and runs no
cleanup. -/
def handle_process (mtemp ctemp : String) (outs : List String) (sc : HExit)
    (fs : FS) : FS :=
  match sc with
  | .missingFiles => fs
  | .modelDecodeFails => insert mtemp fs
  | .clothDecodeFails => insert ctemp (insert mtemp fs)
  | .procFails =>
      handlerCleanup mtemp ctemp (insert ctemp (insert mtemp fs))
  | .procOk =>
      handlerCleanup mtemp ctemp
        (insertOuts outs (insert ctemp (insert mtemp fs)))

/-- The errors RunPodHandler.setup can signal. -/
inductive SetupErr where
  | runtimeErr (msg : String)
  | modelLoadErr (msg model : String)
deriving DecidableEq

/-- The readiness-wait loop of RunPodHandler.setup (handler.py): starting
from elapsed time w, while the models are not loaded and w is below 300,
sleep 5 seconds and re-check; after the loop a still-unloaded state raises
RuntimeError.  loaded t is the models_loaded flag observed at elapsed time t;
the fuel argument only bounds the recursion and is chosen large enough to
never run out before the 300-second ceiling. -/
def waitPoll (loaded : Nat → Bool) : Nat → Nat → Except SetupErr Nat
  | 0, w =>
      if loaded w then .ok w
      else .error (.runtimeErr "Models failed to load within timeout period")
  | fuel + 1, w =>
      if loaded w then .ok w
      else if w < 300 then waitPoll loaded fuel (w + 5)
      else .error (.runtimeErr "Models failed to load within timeout period")

/-- The bounded readiness wait of RunPodHandler.setup: poll every 5 seconds
from 0 with ceiling max_wait_time = 300. -/
def setupWait (loaded : Nat → Bool) : Except SetupErr Nat :=
  waitPoll loaded 61 0

/-- Whether a wait outcome is a ModelLoadError. -/
def isModelLoadErr : Except SetupErr Nat → Bool
  | .error (.modelLoadErr _ _) => true
  | _ => false

/-- The HealthResponse of the /health endpoint (api/app.py). -/
structure HealthResponse where
  status : String
  timestamp : String
  version : String
  environment : String
  models_loaded : Bool
  gpu_available : Bool

/-- health_check from api/app.py. -/
def health_check (models_loaded gpu_available : Bool)
    (timestamp environment : String) : HealthResponse :=
  { status := if models_loaded then "healthy" else "unhealthy",
    timestamp := timestamp,
    version := "1.0.0",
    environment := environment,
    models_loaded := models_loaded,
    gpu_available := gpu_available }

/-- The dict returned by RunPodHandler._handle_health: in its except branch
the models_loaded key is absent, which the optional field records. -/
structure HandlerHealth where
  status : String
  models_loaded : Option Bool
  gpu_available : Option Bool
  errMsg : Option String

/-- RunPodHandler._handle_health from handler.py.  manager is none when
reading self.model_manager.models_loaded raises (the handler was never set
up), which lands in the except branch. -/
def handle_health (manager : Option Bool) (gpu_available : Bool) : HandlerHealth :=
  match manager with
  | some b =>
      { status := if b then "healthy" else "unhealthy",
        models_loaded := some b,
        gpu_available := some gpu_available,
        errMsg := none }
  | none =>
      { status := "unhealthy",
        models_loaded := none,
        gpu_available := none,
        errMsg := some "attribute error" }

/-- A raised Python exception: its type name and message. -/
structure PyExc where
  ty : String
  msg : String
deriving DecidableEq

/-- One entry of the append-only ErrorTracker log. -/
structure ErrorRecord where
  ty : String
  msg : String
  context : List (String × String)

/-- ErrorTracker.track_error from utils/error_handling.py: append one record. -/
def track_error (errors : List ErrorRecord) (e : PyExc)
    (context : List (String × String)) : List ErrorRecord :=
  errors ++ [{ ty := e.ty, msg := e.msg, context := context }]

/-- safe_execute from utils/error_handling.py: run the wrapped call; a normal
return yields (True, result), a raised exception is caught, tracked with the
function name and truncated argument strings, and yields (False, exception).
The wrapped call is modelled as returning Except: ok for a normal return,
error for a raised exception. -/
def safe_execute {α : Type} (tracker : List ErrorRecord)
    (f : Unit → Except PyExc α) (fname argsStr kwargsStr : String) :
    (Bool × (α ⊕ PyExc)) × List ErrorRecord :=
  match f () with
  | .ok r => ((true, .inl r), tracker)
  | .error e =>
      ((false, .inr e),
        track_error tracker e
          [("function", fname), ("args", argsStr.take 100),
           ("kwargs", kwargsStr.take 100)])

/-- A file-check oracle under which every path is a valid image file. -/
def fcAllValid : String → Bool × String := fun _ => (true, "Valid image file")

/-- A blank canonical-size image. -/
def imgBlank : Img := { width := 768, height := 1024, pix := fun _ _ => 0 }

/-- A concrete environment for evaluating the pipeline. -/
def envAll : Env :=
  { fileCheck := fcAllValid,
    loadImage := fun _ => imgBlank,
    resizeDefault := fun i _ _ => i }

/-- A concrete stage bundle whose synthesizer always returns two images. -/
def stagesTwo : Stages :=
  { openpose := fun _ => [],
    parsing := fun i => i,
    getMaskLocation := fun _ _ p _ => (p, p),
    synth := fun _ => [imgBlank, imgBlank] }

/-- A concrete valid hd request asking for three samples. -/
def reqSamples3 : ProcessRequest :=
  { model_type := "hd", category := CatVal.int 0,
    samples := 3, steps := 20, scale := 2, seed := -1 }

/-- A concrete request dict with a missing required field and an
out-of-range samples value. -/
def c2BadData : RequestData :=
  { cloth_path := some "cloth.png", samples := some 10 }

theorem data_prefix_extend (p a b : String) (h : p.data <+: a.data) :
    p.data <+: (a ++ b).data := by
  rw [String.data_append]
  exact h.trans (List.prefix_append a.data b.data)

/-- Claim C4: every numeric parameter value inside its documented bound
(samples in [1,4], steps in [1,40], scale in [1.0,5.0], seed in -1 union
[0, 2147483647]) passes its validator, every value strictly outside is
rejected, and every rejection message names the field. -/
theorem claim_C4_numeric_bounds :
    (∀ s : Int, (validate_samples s).1 = true ↔ 1 ≤ s ∧ s ≤ 4) ∧
    (∀ s : Int, (validate_samples s).1 = false →
      "Samples".data <+: (validate_samples s).2.data) ∧
    (∀ s : Int, (validate_steps s).1 = true ↔ 1 ≤ s ∧ s ≤ 40) ∧
    (∀ s : Int, (validate_steps s).1 = false →
      "Steps".data <+: (validate_steps s).2.data) ∧
    (∀ r : Rat, (validate_scale r).1 = true ↔ 1 ≤ r ∧ r ≤ 5) ∧
    (∀ r : Rat, (validate_scale r).1 = false →
      "Scale".data <+: (validate_scale r).2.data) ∧
    (∀ s : Int, (validate_seed s).1 = true ↔ s = -1 ∨ (0 ≤ s ∧ s ≤ 2147483647)) ∧
    (∀ s : Int, (validate_seed s).1 = false →
      "Seed".data <+: (validate_seed s).2.data) := by
  have h4 : processingConfig.max_samples = 4 := rfl
  have h40 : processingConfig.max_steps = 40 := rfl
  have hmin : processingConfig.min_scale = 1 := rfl
  have hmax : processingConfig.max_scale = 5 := rfl
  refine ⟨?_, ?_, ?_, ?_, ?_, ?_, ?_, ?_⟩
  · intro s
    unfold validate_samples
    rw [h4]
    by_cases h1 : s < 1
    · rw [if_pos h1]; simp; omega
    · rw [if_neg h1]
      by_cases h2 : s > 4
      · rw [if_pos h2]; simp; omega
      · rw [if_neg h2]; simp; omega
  · intro s h
    unfold validate_samples at h ⊢
    rw [h4] at h ⊢
    by_cases h1 : s < 1
    · rw [if_pos h1]
      exact data_prefix_extend _ _ _ (by decide)
    · rw [if_neg h1] at h ⊢
      by_cases h2 : s > 4
      · rw [if_pos h2]
        exact data_prefix_extend _ _ _ (data_prefix_extend _ _ _
          (data_prefix_extend _ _ _ (data_prefix_extend _ _ _ (by decide))))
      · rw [if_neg h2] at h; simp at h
  · intro s
    unfold validate_steps
    rw [h40]
    by_cases h1 : s < 1
    · rw [if_pos h1]; simp; omega
    · rw [if_neg h1]
      by_cases h2 : s > 40
      · rw [if_pos h2]; simp; omega
      · rw [if_neg h2]; simp; omega
  · intro s h
    unfold validate_steps at h ⊢
    rw [h40] at h ⊢
    by_cases h1 : s < 1
    · rw [if_pos h1]
      exact data_prefix_extend _ _ _ (by decide)
    · rw [if_neg h1] at h ⊢
      by_cases h2 : s > 40
      · rw [if_pos h2]
        exact data_prefix_extend _ _ _ (data_prefix_extend _ _ _
          (data_prefix_extend _ _ _ (data_prefix_extend _ _ _ (by decide))))
      · rw [if_neg h2] at h; simp at h
  · intro r
    unfold validate_scale
    rw [hmin, hmax]
    by_cases h1 : r < 1
    · rw [if_pos h1]
      simp only [Prod.fst]
      constructor
      · intro hf; exact absurd hf (by decide)
      · rintro ⟨a, b⟩; exact absurd h1 (not_lt.mpr a)
    · rw [if_neg h1]
      by_cases h2 : r > 5
      · rw [if_pos h2]
        simp only [Prod.fst]
        constructor
        · intro hf; exact absurd hf (by decide)
        · rintro ⟨a, b⟩; exact absurd h2 (not_lt.mpr b)
      · rw [if_neg h2]
        simp only [Prod.fst]
        constructor
        · intro _; exact ⟨not_lt.mp h1, not_lt.mp h2⟩
        · intro _; trivial
  · intro r h
    unfold validate_scale at h ⊢
    rw [hmin, hmax] at h ⊢
    by_cases h1 : r < 1
    · rw [if_pos h1]
      exact data_prefix_extend _ _ _ (data_prefix_extend _ _ _
        (data_prefix_extend _ _ _ (data_prefix_extend _ _ _ (by decide))))
    · rw [if_neg h1] at h ⊢
      by_cases h2 : r > 5
      · rw [if_pos h2]
        exact data_prefix_extend _ _ _ (data_prefix_extend _ _ _
          (data_prefix_extend _ _ _ (data_prefix_extend _ _ _ (by decide))))
      · rw [if_neg h2] at h; simp at h
  · intro s
    unfold validate_seed
    by_cases h1 : s < -1
    · rw [if_pos h1]; simp; omega
    · rw [if_neg h1]
      by_cases h2 : s > 2147483647
      · rw [if_pos h2]; simp; omega
      · rw [if_neg h2]; simp; omega
  · intro s h
    unfold validate_seed at h ⊢
    by_cases h1 : s < -1
    · rw [if_pos h1]
      exact data_prefix_extend _ _ _ (by decide)
    · rw [if_neg h1] at h ⊢
      by_cases h2 : s > 2147483647
      · rw [if_pos h2]
        exact data_prefix_extend _ _ _ (data_prefix_extend _ _ _ (by decide))
      · rw [if_neg h2] at h; simp at h

/-- Witness for claim C4 at concrete out-of-range values. -/
theorem claim_C4_numeric_bounds_witness :
    ((validate_samples 5).1 = false ∧
      "Samples".data <+: (validate_samples 5).2.data) ∧
    ((validate_steps 41).1 = false ∧
      "Steps".data <+: (validate_steps 41).2.data) ∧
    ((validate_scale 6).1 = false ∧
      "Scale".data <+: (validate_scale 6).2.data) ∧
    ((validate_seed (-2)).1 = false ∧
      "Seed".data <+: (validate_seed (-2)).2.data) :=
  ⟨⟨by decide, claim_C4_numeric_bounds.2.1 5 (by decide)⟩,
   ⟨by decide, claim_C4_numeric_bounds.2.2.2.1 41 (by decide)⟩,
   ⟨by decide, claim_C4_numeric_bounds.2.2.2.2.2.1 6 (by decide)⟩,
   ⟨by decide, claim_C4_numeric_bounds.2.2.2.2.2.2.2 (-2) (by decide)⟩⟩

theorem unlinkIfExists_subset (p : String) (fs : FS) :
    unlinkIfExists p fs ⊆ fs := by
  unfold unlinkIfExists
  split_ifs
  · exact Finset.erase_subset _ _
  · exact Finset.Subset.refl _

theorem cleanup_subset (ps : List String) (fs : FS) :
    cleanup_temp_files ps fs ⊆ fs := by
  induction ps generalizing fs with
  | nil => exact Finset.Subset.refl _
  | cons p ps ih =>
      exact (ih (unlinkIfExists p fs)).trans (unlinkIfExists_subset p fs)

theorem not_mem_unlinkIfExists (p : String) (fs : FS) :
    p ∉ unlinkIfExists p fs := by
  unfold unlinkIfExists
  split_ifs with h
  · exact Finset.not_mem_erase p fs
  · exact h

theorem not_mem_cleanup (p : String) (ps : List String) :
    ∀ fs : FS, p ∈ ps → p ∉ cleanup_temp_files ps fs := by
  induction ps with
  | nil => intro fs hp; cases hp
  | cons q ps ih =>
      intro fs hp
      rcases List.mem_cons.mp hp with he | ht
      · subst he
        intro hmem
        exact not_mem_unlinkIfExists p fs (cleanup_subset ps _ hmem)
      · exact ih _ ht

theorem cleanup_of_not_mem (ps : List String) (fs : FS)
    (h : ∀ p ∈ ps, p ∉ fs) : cleanup_temp_files ps fs = fs := by
  induction ps with
  | nil => rfl
  | cons q ps ih =>
      show cleanup_temp_files ps (unlinkIfExists q fs) = fs
      have hq : unlinkIfExists q fs = fs := by
        unfold unlinkIfExists
        exact if_neg (h q (List.mem_cons_self q ps))
      rw [hq]
      exact ih (fun p hp => h p (List.mem_cons_of_mem q hp))

/-- Claim C6: releasing ephemeral files is idempotent — running
cleanup_temp_files a second time on the same path list (including paths
already deleted or never created, since the filesystem is arbitrary) leaves
the filesystem unchanged, and the operation is total, so it never raises. -/
theorem claim_C6_release_idempotent (ps : List String) (fs : FS) :
    cleanup_temp_files ps (cleanup_temp_files ps fs) = cleanup_temp_files ps fs :=
  cleanup_of_not_mem ps _ (fun p hp => not_mem_cleanup p ps fs hp)

/-- Claim C9: in the FastAPI health endpoint and in the RunPod health
handler, the status string is healthy exactly when the models_loaded flag of
the same response is true (in the handler except branch the flag is absent
and the status is unhealthy). -/
theorem claim_C9_health_status_agrees :
    (∀ (ml gpu : Bool) (ts env : String),
      (health_check ml gpu ts env).status = "healthy" ↔
        (health_check ml gpu ts env).models_loaded = true) ∧
    (∀ (manager : Option Bool) (gpu : Bool),
      (handle_health manager gpu).status = "healthy" ↔
        (handle_health manager gpu).models_loaded = some true) := by
  constructor
  · intro ml gpu ts env
    cases ml <;> simp [health_check]
  · intro manager gpu
    match manager with
    | none => simp [handle_health]
    | some b => cases b <;> simp [handle_health]

/-- Claim C10: safe_execute is total over the wrapped call — a normal return
r yields (True, r) with the tracker untouched, a raised exception e is caught
and yields (False, e) with e tracked, and the success flag is true exactly on
normal returns; being a total function, safe_execute never propagates the
wrapped failure. -/
theorem claim_C10_safe_execute_total {α : Type} (tracker : List ErrorRecord)
    (f : Unit → Except PyExc α) (fname argsStr kwargsStr : String) :
    (∀ r, f () = .ok r →
      safe_execute tracker f fname argsStr kwargsStr = ((true, .inl r), tracker)) ∧
    (∀ e, f () = .error e →
      safe_execute tracker f fname argsStr kwargsStr =
        ((false, .inr e),
          track_error tracker e
            [("function", fname), ("args", argsStr.take 100),
             ("kwargs", kwargsStr.take 100)])) ∧
    ((safe_execute tracker f fname argsStr kwargsStr).1.1 = true ↔
      ∃ r, f () = .ok r) := by
  refine ⟨?_, ?_, ?_⟩
  · intro r h
    unfold safe_execute
    rw [h]
  · intro e h
    unfold safe_execute
    rw [h]
  · unfold safe_execute
    cases hf : f () with
    | ok r => simp
    | error e => simp

/-- Witness for claim C10 at a concrete failing and succeeding call. -/
theorem claim_C10_safe_execute_total_witness :
    safe_execute (α := Nat) [] (fun _ => .error { ty := "ValueError", msg := "boom" })
        "f" "()" "" =
      ((false, .inr { ty := "ValueError", msg := "boom" }),
        track_error [] { ty := "ValueError", msg := "boom" }
          [("function", "f"), ("args", "()".take 100), ("kwargs", "".take 100)]) ∧
    safe_execute (α := Nat) [] (fun _ => .ok 7) "g" "()" "" = ((true, .inl 7), []) :=
  ⟨(claim_C10_safe_execute_total [] (fun _ => .error { ty := "ValueError", msg := "boom" })
      "f" "()" "").2.1 { ty := "ValueError", msg := "boom" } rfl,
   (claim_C10_safe_execute_total [] (fun _ => .ok 7) "g" "()" "").1 7 rfl⟩

theorem waitPoll_timeout (loaded : Nat → Bool) :
    ∀ (fuel w : Nat), (∀ j : Nat, loaded (w + 5 * j) = false) →
      waitPoll loaded fuel w =
        .error (.runtimeErr "Models failed to load within timeout period") := by
  intro fuel
  induction fuel with
  | zero =>
      intro w h
      have h0 : loaded w = false := by simpa using h 0
      simp [waitPoll, h0]
  | succ f ih =>
      intro w h
      have h0 : loaded w = false := by simpa using h 0
      simp only [waitPoll, h0, Bool.false_eq_true, if_false]
      split_ifs with hw
      · apply ih
        intro j
        have he : w + 5 + 5 * j = w + 5 * (j + 1) := by ring
        rw [he]
        exact h (j + 1)
      · rfl

theorem waitPoll_success (loaded : Nat → Bool) :
    ∀ (k fuel w : Nat), k ≤ fuel → w + 5 * k ≤ 300 →
      (∀ j, j < k → loaded (w + 5 * j) = false) → loaded (w + 5 * k) = true →
      waitPoll loaded fuel w = .ok (w + 5 * k) := by
  intro k
  induction k with
  | zero =>
      intro fuel w _ _ _ hl
      have hl0 : loaded w = true := by simpa using hl
      cases fuel <;> simp [waitPoll, hl0]
  | succ k ih =>
      intro fuel w hf hb hs hl
      have h0 : loaded w = false := by simpa using hs 0 (Nat.succ_pos k)
      match fuel with
      | 0 => omega
      | f + 1 =>
          have hw : w < 300 := by omega
          have he : w + 5 + 5 * k = w + 5 * (k + 1) := by ring
          simp only [waitPoll, h0, Bool.false_eq_true, if_false, if_pos hw]
          rw [← he]
          apply ih f (w + 5) (by omega) (by omega)
          · intro j hj
            have hj2 : w + 5 + 5 * j = w + 5 * (j + 1) := by ring
            rw [hj2]
            exact hs (j + 1) (by omega)
          · rw [he]
            exact hl

/-- Claim C7 counterexample: when the models never load, the bounded wait of
RunPodHandler.setup fails with a plain RuntimeError, not with a
ModelLoadError as claimed. -/
theorem claim_C7_counterexample :
    setupWait (fun _ => false) =
      .error (.runtimeErr "Models failed to load within timeout period") ∧
    isModelLoadErr (setupWait (fun _ => false)) = false :=
  ⟨rfl, rfl⟩

/-- Claim C7 (amended): the readiness wait polls the loaded flag at the fixed
instants 5*j seconds with default ceiling 300 seconds (poll indices up to
60); if the flag is false at every poll the wait fails with RuntimeError
(not ModelLoadError), and the first poll at which the flag is true ends the
wait successfully at that elapsed time. -/
theorem claim_C7_bounded_wait :
    (∀ loaded : Nat → Bool, (∀ j : Nat, loaded (5 * j) = false) →
      setupWait loaded =
        .error (.runtimeErr "Models failed to load within timeout period")) ∧
    (∀ (loaded : Nat → Bool) (k : Nat), k ≤ 60 →
      (∀ j, j < k → loaded (5 * j) = false) → loaded (5 * k) = true →
      setupWait loaded = .ok (5 * k)) := by
  constructor
  · intro loaded h
    apply waitPoll_timeout
    intro j
    simpa using h j
  · intro loaded k hk hs hl
    have := waitPoll_success loaded k 61 0 (by omega) (by omega)
      (fun j hj => by simpa using hs j hj) (by simpa using hl)
    simpa using this

/-- Witness for claim C7: concrete never-loading and immediately-loaded
flags. -/
theorem claim_C7_bounded_wait_witness :
    setupWait (fun _ => false) =
      .error (.runtimeErr "Models failed to load within timeout period") ∧
    setupWait (fun _ => true) = .ok 0 :=
  ⟨claim_C7_bounded_wait.1 (fun _ => false) (fun _ => rfl),
   by
    have := claim_C7_bounded_wait.2 (fun _ => true) 0 (by omega)
      (fun j hj => absurd hj (Nat.not_lt_zero j)) rfl
    simpa using this⟩

/-- Claim C8: the mask and the grayscale mask are upsampled to exactly
768 by 1024 with nearest-neighbor sampling (every output pixel is a copy of a
source pixel), and the composite is a hard per-pixel selection: the
grayscale-mask pixel where the mask is set and the untouched source pixel
elsewhere — never a blend of the two. -/
theorem claim_C8_mask_compositing :
    (∀ maskImg : Img, (resizeNearest 768 1024 maskImg).width = 768 ∧
      (resizeNearest 768 1024 maskImg).height = 1024) ∧
    (∀ (maskImg : Img) (x y : Nat), ∃ sx sy,
      (resizeNearest 768 1024 maskImg).pix x y = maskImg.pix sx sy) ∧
    (∀ (mg src m : Img) (x y : Nat),
      (composite mg src m).pix x y = mg.pix x y ∨
      (composite mg src m).pix x y = src.pix x y) ∧
    (∀ (mg src m : Img) (x y : Nat), m.pix x y ≠ 0 →
      (composite mg src m).pix x y = mg.pix x y) ∧
    (∀ (mg src m : Img) (x y : Nat), m.pix x y = 0 →
      (composite mg src m).pix x y = src.pix x y) := by
  refine ⟨?_, ?_, ?_, ?_, ?_⟩
  · intro maskImg
    exact ⟨rfl, rfl⟩
  · intro maskImg x y
    exact ⟨x * maskImg.width / 768, y * maskImg.height / 1024, rfl⟩
  · intro mg src m x y
    unfold composite
    by_cases h : m.pix x y ≠ 0
    · left; simp [h]
    · right; simp [h]
  · intro mg src m x y h
    unfold composite
    simp [h]
  · intro mg src m x y h
    unfold composite
    simp [h]

/-- Witness for claim C8: a fully set mask selects the grayscale pixel and a
cleared mask preserves the source pixel, at a concrete pixel. -/
theorem claim_C8_mask_compositing_witness :
    (composite imgBlank imgBlank
        { width := 768, height := 1024, pix := fun _ _ => 1 }).pix 0 0 =
      imgBlank.pix 0 0 ∧
    (composite { width := 768, height := 1024, pix := fun _ _ => 9 } imgBlank
        imgBlank).pix 0 0 = imgBlank.pix 0 0 :=
  ⟨claim_C8_mask_compositing.2.2.2.1 imgBlank imgBlank
      { width := 768, height := 1024, pix := fun _ _ => 1 } 0 0 (by decide),
   claim_C8_mask_compositing.2.2.2.2 { width := 768, height := 1024, pix := fun _ _ => 9 }
      imgBlank imgBlank 0 0 rfl⟩

theorem length_tagged (tag : String) (r : Bool × String) :
    (tagged tag r).length = vcount r := by
  unfold tagged vcount
  split_ifs <;> rfl

theorem length_taggedOpt {β : Type} (tag : String) (o : Option β)
    (v : β → Bool × String) : (taggedOpt tag o v).length = ocount o v := by
  cases o <;> simp [taggedOpt, ocount, length_tagged]

theorem tag_prefix (tag s : String) : tag.data <+: (tag ++ ": " ++ s).data :=
  data_prefix_extend _ _ _ (data_prefix_extend _ _ _ (List.prefix_refl _))

theorem validate_request_mk (fc : String → Bool × String) (mp cp : String)
    (mtO : Option String) (catO : Option CatVal) (sO stO : Option Int)
    (scO : Option Rat) (seO : Option Int) :
    validate_request fc ⟨some mp, some cp, mtO, catO, sO, stO, scO, seO⟩ =
      ((tagged "Model path" (fc mp) ++ tagged "Cloth path" (fc cp) ++
        tagged "Model type" (validate_model_type (mtO.getD "hd")) ++
        tagged "Category" (validate_category (catO.getD (CatVal.int 0)) (mtO.getD "hd")) ++
        taggedOpt "Samples" sO validate_samples ++
        taggedOpt "Steps" stO validate_steps ++
        taggedOpt "Scale" scO validate_scale ++
        taggedOpt "Seed" seO validate_seed).length == 0,
       tagged "Model path" (fc mp) ++ tagged "Cloth path" (fc cp) ++
        tagged "Model type" (validate_model_type (mtO.getD "hd")) ++
        tagged "Category" (validate_category (catO.getD (CatVal.int 0)) (mtO.getD "hd")) ++
        taggedOpt "Samples" sO validate_samples ++
        taggedOpt "Steps" stO validate_steps ++
        taggedOpt "Scale" scO validate_scale ++
        taggedOpt "Seed" seO validate_seed) := rfl

/-- Claim C2 counterexample: with a missing model_path and an out-of-range
samples value, validate_request returns only the missing-field error — the
violated samples rule contributes no entry, so the error list is not the
complete set of field violations. -/
theorem claim_C2_counterexample :
    validate_request fcAllValid c2BadData =
      (false, ["Missing required field: model_path"]) ∧
    (validate_samples 10).1 = false :=
  ⟨rfl, rfl⟩

/-- Claim C2 (amended): when both required path fields are present,
validate_request evaluates every rule and never fails fast — the error list
has exactly one entry per violated rule (paths, model type, category, and
each present optional field), validity means the list is empty, and each
violated rule is named by its entry. -/
theorem claim_C2_all_violations (fc : String → Bool × String) (d : RequestData)
    (mp cp : String) (hm : d.model_path = some mp) (hc : d.cloth_path = some cp) :
    (validate_request fc d).2.length = expectedViolations fc d mp cp ∧
    ((validate_request fc d).1 = true ↔ (validate_request fc d).2 = []) ∧
    ((fc mp).1 = false →
      ∃ m ∈ (validate_request fc d).2, "Model path".data <+: m.data) ∧
    ((fc cp).1 = false →
      ∃ m ∈ (validate_request fc d).2, "Cloth path".data <+: m.data) ∧
    ((validate_model_type (d.model_type.getD "hd")).1 = false →
      ∃ m ∈ (validate_request fc d).2, "Model type".data <+: m.data) ∧
    ((validate_category (d.category.getD (CatVal.int 0)) (d.model_type.getD "hd")).1 = false →
      ∃ m ∈ (validate_request fc d).2, "Category".data <+: m.data) ∧
    (∀ v, d.samples = some v → (validate_samples v).1 = false →
      ∃ m ∈ (validate_request fc d).2, "Samples".data <+: m.data) ∧
    (∀ v, d.steps = some v → (validate_steps v).1 = false →
      ∃ m ∈ (validate_request fc d).2, "Steps".data <+: m.data) ∧
    (∀ v, d.scale = some v → (validate_scale v).1 = false →
      ∃ m ∈ (validate_request fc d).2, "Scale".data <+: m.data) ∧
    (∀ v, d.seed = some v → (validate_seed v).1 = false →
      ∃ m ∈ (validate_request fc d).2, "Seed".data <+: m.data) := by
  obtain ⟨m1, c1, mt1, cat1, s1, st1, sc1, se1⟩ := d
  dsimp only at hm hc ⊢
  subst hm
  subst hc
  rw [validate_request_mk]
  refine ⟨?_, ?_, ?_, ?_, ?_, ?_, ?_, ?_, ?_, ?_⟩
  · simp only [expectedViolations, List.length_append, length_tagged, length_taggedOpt]
  · simp [List.length_eq_zero]
  · intro h
    refine ⟨"Model path" ++ ": " ++ (fc mp).2, ?_, tag_prefix _ _⟩
    have hx : ("Model path" ++ ": " ++ (fc mp).2) ∈ tagged "Model path" (fc mp) := by
      simp [tagged, h]
    simp only [List.mem_append]
    tauto
  · intro h
    refine ⟨"Cloth path" ++ ": " ++ (fc cp).2, ?_, tag_prefix _ _⟩
    have hx : ("Cloth path" ++ ": " ++ (fc cp).2) ∈ tagged "Cloth path" (fc cp) := by
      simp [tagged, h]
    simp only [List.mem_append]
    tauto
  · intro h
    refine ⟨"Model type" ++ ": " ++ (validate_model_type (mt1.getD "hd")).2, ?_,
      tag_prefix _ _⟩
    have hx : ("Model type" ++ ": " ++ (validate_model_type (mt1.getD "hd")).2) ∈
        tagged "Model type" (validate_model_type (mt1.getD "hd")) := by
      simp [tagged, h]
    simp only [List.mem_append]
    tauto
  · intro h
    refine ⟨"Category" ++ ": " ++
      (validate_category (cat1.getD (CatVal.int 0)) (mt1.getD "hd")).2, ?_,
      tag_prefix _ _⟩
    have hx : ("Category" ++ ": " ++
        (validate_category (cat1.getD (CatVal.int 0)) (mt1.getD "hd")).2) ∈
        tagged "Category" (validate_category (cat1.getD (CatVal.int 0)) (mt1.getD "hd")) := by
      simp [tagged, h]
    simp only [List.mem_append]
    tauto
  · intro v hv h
    subst hv
    refine ⟨"Samples" ++ ": " ++ (validate_samples v).2, ?_, tag_prefix _ _⟩
    have hx : ("Samples" ++ ": " ++ (validate_samples v).2) ∈
        taggedOpt "Samples" (some v) validate_samples := by
      simp [taggedOpt, tagged, h]
    simp only [List.mem_append]
    tauto
  · intro v hv h
    subst hv
    refine ⟨"Steps" ++ ": " ++ (validate_steps v).2, ?_, tag_prefix _ _⟩
    have hx : ("Steps" ++ ": " ++ (validate_steps v).2) ∈
        taggedOpt "Steps" (some v) validate_steps := by
      simp [taggedOpt, tagged, h]
    simp only [List.mem_append]
    tauto
  · intro v hv h
    subst hv
    refine ⟨"Scale" ++ ": " ++ (validate_scale v).2, ?_, tag_prefix _ _⟩
    have hx : ("Scale" ++ ": " ++ (validate_scale v).2) ∈
        taggedOpt "Scale" (some v) validate_scale := by
      simp [taggedOpt, tagged, h]
    simp only [List.mem_append]
    tauto
  · intro v hv h
    subst hv
    refine ⟨"Seed" ++ ": " ++ (validate_seed v).2, ?_, tag_prefix _ _⟩
    have hx : ("Seed" ++ ": " ++ (validate_seed v).2) ∈
        taggedOpt "Seed" (some v) validate_seed := by
      simp [taggedOpt, tagged, h]
    simp only [List.mem_append]
    tauto

/-- Witness for claim C2: a request whose two path checks and samples value
all fail yields exactly three error entries, matching the violated-rule
count. -/
theorem claim_C2_all_violations_witness :
    (validate_request (fun p => (false, "File does not exist: " ++ p))
      ⟨some "m.png", some "c.png", some "hd", some (CatVal.int 0),
        some 5, none, none, none⟩).2.length = 3 ∧
    (validate_request (fun p => (false, "File does not exist: " ++ p))
      ⟨some "m.png", some "c.png", some "hd", some (CatVal.int 0),
        some 5, none, none, none⟩).2.length =
      expectedViolations (fun p => (false, "File does not exist: " ++ p))
        ⟨some "m.png", some "c.png", some "hd", some (CatVal.int 0),
          some 5, none, none, none⟩ "m.png" "c.png" :=
  ⟨by decide,
   (claim_C2_all_violations (fun p => (false, "File does not exist: " ++ p))
      ⟨some "m.png", some "c.png", some "hd", some (CatVal.int 0),
        some 5, none, none, none⟩ "m.png" "c.png" rfl rfl).1⟩

theorem validate_request_reqData (fc : String → Bool × String) (mp cp : String)
    (req : ProcessRequest) :
    validate_request fc (reqData mp cp req) =
      ((tagged "Model path" (fc mp) ++ tagged "Cloth path" (fc cp) ++
        tagged "Model type" (validate_model_type req.model_type) ++
        tagged "Category" (validate_category req.category req.model_type) ++
        tagged "Samples" (validate_samples req.samples) ++
        tagged "Steps" (validate_steps req.steps) ++
        tagged "Scale" (validate_scale req.scale) ++
        tagged "Seed" (validate_seed req.seed)).length == 0,
       tagged "Model path" (fc mp) ++ tagged "Cloth path" (fc cp) ++
        tagged "Model type" (validate_model_type req.model_type) ++
        tagged "Category" (validate_category req.category req.model_type) ++
        tagged "Samples" (validate_samples req.samples) ++
        tagged "Steps" (validate_steps req.steps) ++
        tagged "Scale" (validate_scale req.scale) ++
        tagged "Seed" (validate_seed req.seed)) := rfl

theorem validate_request_reqData_category (fc : String → Bool × String)
    (mp cp : String) (req : ProcessRequest)
    (h : (validate_request fc (reqData mp cp req)).1 = true) :
    (validate_category req.category req.model_type).1 = true := by
  rw [validate_request_reqData] at h
  dsimp only at h
  have h0 : (tagged "Model path" (fc mp) ++ tagged "Cloth path" (fc cp) ++
      tagged "Model type" (validate_model_type req.model_type) ++
      tagged "Category" (validate_category req.category req.model_type) ++
      tagged "Samples" (validate_samples req.samples) ++
      tagged "Steps" (validate_steps req.steps) ++
      tagged "Scale" (validate_scale req.scale) ++
      tagged "Seed" (validate_seed req.seed)).length = 0 := by
    simpa using h
  simp only [List.length_append] at h0
  have hlen : (tagged "Category" (validate_category req.category req.model_type)).length = 0 := by
    omega
  rw [length_tagged] at hlen
  unfold vcount at hlen
  split_ifs at hlen with hv
  · exact hv

theorem convert_category_ok (cat : CatVal) (mt : String)
    (h : (validate_category cat mt).1 = true) :
    ∃ n, validate_and_convert_category cat mt = .ok n := by
  cases cat with
  | int n =>
      refine ⟨n, ?_⟩
      unfold validate_and_convert_category
      rw [if_neg (by simp [h])]
  | str s =>
      unfold validate_category at h
      by_cases hmt : mt = "hd"
      · rw [if_pos hmt] at h
        have hcond : ¬(CatVal.str s ≠ CatVal.int 0 ∧ CatVal.str s ≠ CatVal.str "upperbody") := by
          intro hcond
          rw [if_pos hcond] at h
          simp at h
        have hne : CatVal.str s ≠ CatVal.int 0 := by simp
        have hs : s = "upperbody" := by
          by_contra hss
          exact hcond ⟨hne, by simp [hss]⟩
        subst hs
        refine ⟨0, ?_⟩
        unfold validate_and_convert_category
        rw [if_neg (by simp [validate_category, hmt])]
        rfl
      · rw [if_neg hmt] at h
        by_cases hdc : mt = "dc"
        · rw [if_pos hdc] at h
          by_cases hcond : CatVal.str s ∈ [CatVal.int 0, CatVal.int 1, CatVal.int 2,
              CatVal.str "upperbody", CatVal.str "lowerbody", CatVal.str "dress"]
          · simp at hcond
            have hvc : (validate_category (CatVal.str s) mt).1 = true := by
              unfold validate_category
              rw [if_neg hmt, if_pos hdc, if_pos (by simpa using hcond)]
            rcases hcond with hs | hs | hs <;> subst hs
            · refine ⟨0, ?_⟩
              unfold validate_and_convert_category
              rw [if_neg (by simp [hvc])]
              rfl
            · refine ⟨1, ?_⟩
              unfold validate_and_convert_category
              rw [if_neg (by simp [hvc])]
              rfl
            · refine ⟨2, ?_⟩
              unfold validate_and_convert_category
              rw [if_neg (by simp [hvc])]
              rfl
          · rw [if_neg hcond] at h
            simp at h
        · rw [if_neg hdc] at h
          simp at h

/-- Claim C3: for every request with model_type hd and a category that is
neither the integer 0 nor the name upperbody, process_image fails validation
before any stage model is invoked — the result is the same ValidationError
for every stage bundle, its message is built from the collected error list,
and that list contains an entry naming the category field. -/
theorem claim_C3_hd_category_gate (env : Env) (st : Stages) (mp cp : String)
    (req : ProcessRequest) (ts : String)
    (h1 : req.model_type = "hd") (h2 : req.category ≠ CatVal.int 0)
    (h3 : req.category ≠ CatVal.str "upperbody") :
    processImage env st mp cp req ts =
      .error (.validationError ("Invalid request: " ++
        String.intercalate ", "
          (validate_request env.fileCheck (reqData mp cp req)).2) "request") ∧
    ∃ m ∈ (validate_request env.fileCheck (reqData mp cp req)).2,
      "Category".data <+: m.data := by
  have hcat : validate_category req.category req.model_type =
      (false, "HD model only supports upperbody garments") := by
    rw [h1]
    unfold validate_category
    rw [if_pos rfl, if_pos ⟨h2, h3⟩]
  have htag : tagged "Category" (validate_category req.category req.model_type) =
      ["Category" ++ ": " ++ "HD model only supports upperbody garments"] := by
    rw [hcat]
    rfl
  have hmem : ("Category" ++ ": " ++ "HD model only supports upperbody garments") ∈
      (validate_request env.fileCheck (reqData mp cp req)).2 := by
    rw [validate_request_reqData]
    dsimp only
    have hx : ("Category" ++ ": " ++ "HD model only supports upperbody garments") ∈
        tagged "Category" (validate_category req.category req.model_type) := by
      rw [htag]
      exact List.mem_singleton_self _
    simp only [List.mem_append]
    tauto
  have hne : (validate_request env.fileCheck (reqData mp cp req)).2 ≠ [] :=
    List.ne_nil_of_mem hmem
  have hfst : (validate_request env.fileCheck (reqData mp cp req)).1 = false := by
    rw [validate_request_reqData] at hne ⊢
    dsimp only at hne ⊢
    simpa [List.length_eq_zero] using hne
  constructor
  · simp only [processImage]
    rw [if_pos hfst]
  · exact ⟨_, hmem, tag_prefix "Category" _⟩

/-- Witness for claim C3: a concrete hd request with category 1 is rejected
with a message naming the category field, for a concrete stage bundle. -/
theorem claim_C3_hd_category_gate_witness :
    processImage envAll stagesTwo "m.png" "c.png"
        { model_type := "hd", category := CatVal.int 1 } "TS" =
      .error (.validationError
        "Invalid request: Category: HD model only supports upperbody garments"
        "request") := by
  rw [(claim_C3_hd_category_gate envAll stagesTwo "m.png" "c.png"
    { model_type := "hd", category := CatVal.int 1 } "TS" rfl (by decide) (by decide)).1]
  rfl

/-- Claim C1 counterexample: with a valid request asking for samples = 3 and
a synthesizer returning only 2 images, process_image succeeds and returns 2
result paths — no ProcessingError is raised and no count check occurs. -/
theorem claim_C1_counterexample :
    processImage envAll stagesTwo "model.png" "cloth.png" reqSamples3 "TS" =
      .ok ["outputs/results/result_TS_0.png", "outputs/results/result_TS_1.png"] ∧
    reqSamples3.samples = 3 ∧
    (["outputs/results/result_TS_0.png", "outputs/results/result_TS_1.png"] :
      List String).length = 2 :=
  ⟨rfl, rfl, rfl⟩

/-- Claim C1 (amended): for every valid request, process_image returns
success with exactly one result path per image the synthesizer returns, in
encounter order — the returned image count is never compared against the
requested samples, so a mismatched count is neither truncated, padded, nor
turned into a ProcessingError. -/
theorem claim_C1_per_image_paths (env : Env) (st : Stages) (mp cp : String)
    (req : ProcessRequest) (ts : String) (imgs : List Img)
    (hv : (validate_request env.fileCheck (reqData mp cp req)).1 = true)
    (hs : ∀ a, st.synth a = imgs) :
    processImage env st mp cp req ts = .ok (mkResultPaths ts imgs.length) := by
  have hcat := validate_request_reqData_category env.fileCheck mp cp req hv
  obtain ⟨n, hn⟩ := convert_category_ok req.category req.model_type hcat
  simp only [processImage]
  rw [if_neg (by simp [hv]), hn]
  simp only [hs]

/-- Witness for claim C1: the concrete two-image synthesizer yields exactly
two result paths for the valid three-sample request. -/
theorem claim_C1_per_image_paths_witness :
    processImage envAll stagesTwo "model.png" "cloth.png" reqSamples3 "TS" =
      .ok (mkResultPaths "TS" ([imgBlank, imgBlank] : List Img).length) :=
  claim_C1_per_image_paths envAll stagesTwo "model.png" "cloth.png" reqSamples3 "TS"
    [imgBlank, imgBlank] (by decide) (fun _ => rfl)

theorem not_mem_unlinkIfExists_of_not_mem (o p : String) (s : FS) (h : o ∉ s) :
    o ∉ unlinkIfExists p s :=
  fun hx => h (unlinkIfExists_subset p s hx)

theorem mem_unlinkIfExists_of_ne (o p : String) (s : FS) (hne : o ≠ p)
    (h : o ∈ s) : o ∈ unlinkIfExists p s := by
  unfold unlinkIfExists
  split_ifs
  · exact Finset.mem_erase.mpr ⟨hne, h⟩
  · exact h

theorem mem_cleanup_of_not_mem_list (o : String) (ps : List String) :
    ∀ s : FS, o ∉ ps → o ∈ s → o ∈ cleanup_temp_files ps s := by
  induction ps with
  | nil => intro s _ h; exact h
  | cons p ps ih =>
      intro s ho h
      refine ih _ (fun hx => ho (List.mem_cons_of_mem p hx)) ?_
      exact mem_unlinkIfExists_of_ne o p s
        (fun he => ho (he ▸ List.mem_cons_self p ps)) h

theorem mem_insertOuts (o : String) (outs : List String) (s : FS)
    (h : o ∈ outs) : o ∈ insertOuts outs s := by
  induction outs with
  | nil => cases h
  | cons p ps ih =>
      rcases List.mem_cons.mp h with he | ht
      · subst he
        exact Finset.mem_insert_self o _
      · exact Finset.mem_insert_of_mem (ih ht)

theorem insertOuts_mono (o : String) (outs : List String) (s : FS)
    (h : o ∈ s) : o ∈ insertOuts outs s := by
  induction outs with
  | nil => exact h
  | cons p ps ih => exact Finset.mem_insert_of_mem ih

theorem handlerCleanup_not_mem (m c : String) (s : FS) (hm : m ∈ s)
    (hc : c ∈ s.erase m) :
    m ∉ handlerCleanup m c s ∧ c ∉ handlerCleanup m c s := by
  unfold handlerCleanup
  rw [if_pos hm, if_pos hc]
  constructor
  · intro hx
    exact Finset.not_mem_erase m s (Finset.erase_subset _ _ hx)
  · exact Finset.not_mem_erase c _

theorem handlerCleanup_mem_of_ne (o m c : String) (s : FS) (h1 : o ≠ m)
    (h2 : o ≠ c) (h : o ∈ s) : o ∈ handlerCleanup m c s := by
  simp only [handlerCleanup]
  split_ifs
  · exact Finset.mem_erase.mpr ⟨h2, Finset.mem_erase.mpr ⟨h1, h⟩⟩
  · exact Finset.mem_erase.mpr ⟨h1, h⟩
  · exact h

/-- Claim C5 counterexample: in RunPodHandler._handle_process, when writing
the model temp file fails (for example on invalid base64), the already
materialized model temp file is left behind — the ephemeral input is not
removed on that exit path. -/
theorem claim_C5_counterexample :
    "tmp_model.jpg" ∈
      handle_process "tmp_model.jpg" "tmp_cloth.jpg" [] HExit.modelDecodeFails ∅ ∧
    "tmp_model.jpg" ∈
      handle_process "tmp_model.jpg" "tmp_cloth.jpg" [] HExit.clothDecodeFails ∅ := by
  constructor
  · simp [handle_process]
  · simp [handle_process]

/-- Claim C5 (amended): the FastAPI endpoint removes the materialized
ephemeral inputs on every exit path and retains the persisted outputs; the
RunPod handler removes them on every exit path that completes
materialization of both temp files (processing failure or success) and
retains outputs on success, but a failure while materializing leaks the
already-created temp files. -/
theorem claim_C5_ephemeral_cleanup (mtemp ctemp : String) (outs : List String)
    (fs : FS) (hmc : mtemp ≠ ctemp) (hm : mtemp ∉ fs) (hc : ctemp ∉ fs) :
    (∀ sc : AppExit,
      mtemp ∉ process_images mtemp ctemp outs sc fs ∧
      ctemp ∉ process_images mtemp ctemp outs sc fs) ∧
    (∀ sc : AppExit, sc = .procFails ∨ sc = .procOk →
      ∀ o ∈ outs, o ≠ mtemp → o ≠ ctemp →
        o ∈ process_images mtemp ctemp outs sc fs) ∧
    (∀ sc : HExit, sc = .procFails ∨ sc = .procOk →
      mtemp ∉ handle_process mtemp ctemp outs sc fs ∧
      ctemp ∉ handle_process mtemp ctemp outs sc fs) ∧
    (∀ o ∈ outs, o ≠ mtemp → o ≠ ctemp →
      o ∈ handle_process mtemp ctemp outs HExit.procOk fs) := by
  refine ⟨?_, ?_, ?_, ?_⟩
  · intro sc
    cases sc with
    | badModelType => exact ⟨hm, hc⟩
    | badClothType => exact ⟨hm, hc⟩
    | writeModelFails =>
        exact ⟨not_mem_unlinkIfExists_of_not_mem _ _ _ (not_mem_unlinkIfExists _ _),
          not_mem_unlinkIfExists _ _⟩
    | writeClothFails =>
        exact ⟨not_mem_unlinkIfExists_of_not_mem _ _ _ (not_mem_unlinkIfExists _ _),
          not_mem_unlinkIfExists _ _⟩
    | procFails =>
        exact ⟨not_mem_unlinkIfExists_of_not_mem _ _ _ (not_mem_unlinkIfExists _ _),
          not_mem_unlinkIfExists _ _⟩
    | procOk =>
        exact ⟨not_mem_cleanup _ _ _ (by simp), not_mem_cleanup _ _ _ (by simp)⟩
  · intro sc hsc o ho h1 h2
    rcases hsc with he | he <;> subst he
    · exact mem_unlinkIfExists_of_ne _ _ _ h2 (mem_unlinkIfExists_of_ne _ _ _ h1
        (mem_insertOuts _ _ _ ho))
    · exact mem_cleanup_of_not_mem_list _ _ _ (by simp [h1, h2])
        (mem_unlinkIfExists_of_ne _ _ _ h2 (mem_unlinkIfExists_of_ne _ _ _ h1
          (mem_insertOuts _ _ _ ho)))
  · intro sc hsc
    rcases hsc with he | he <;> subst he
    · exact handlerCleanup_not_mem _ _ _
        (Finset.mem_insert_of_mem (Finset.mem_insert_self _ _))
        (Finset.mem_erase.mpr ⟨(Ne.symm hmc), Finset.mem_insert_self _ _⟩)
    · exact handlerCleanup_not_mem _ _ _
        (insertOuts_mono _ _ _ (Finset.mem_insert_of_mem (Finset.mem_insert_self _ _)))
        (Finset.mem_erase.mpr ⟨(Ne.symm hmc),
          insertOuts_mono _ _ _ (Finset.mem_insert_self _ _)⟩)
  · intro o ho h1 h2
    exact handlerCleanup_mem_of_ne _ _ _ _ h1 h2 (mem_insertOuts _ _ _ ho)

/-- Witness for claim C5: concrete fresh temp names and one output file on an
empty filesystem — temps are gone and the output is retained after success in
both transports. -/
theorem claim_C5_ephemeral_cleanup_witness :
    "tmp_m.jpg" ∉
      process_images "tmp_m.jpg" "tmp_c.jpg" ["outputs/results/r0.png"]
        AppExit.procOk ∅ ∧
    "outputs/results/r0.png" ∈
      process_images "tmp_m.jpg" "tmp_c.jpg" ["outputs/results/r0.png"]
        AppExit.procOk ∅ ∧
    "tmp_m.jpg" ∉
      handle_process "tmp_m.jpg" "tmp_c.jpg" ["outputs/results/r0.png"]
        HExit.procOk ∅ := by
  have h := claim_C5_ephemeral_cleanup "tmp_m.jpg" "tmp_c.jpg"
    ["outputs/results/r0.png"] ∅ (by decide) (by simp) (by simp)
  exact ⟨(h.1 AppExit.procOk).1,
    h.2.1 AppExit.procOk (Or.inr rfl) _ (by simp) (by decide) (by decide),
    (h.2.2.1 HExit.procOk (Or.inr rfl)).1⟩
